import Mathlib

/-!
# Verification of the balance-accounting engine (`src/balance_utils.py`)

Shallow embedding of the billing engine of this repository. Each Python
function of `balance_utils.py` is translated into a pure Lean function over an
explicit database state `DB`. The Django ORM store operations
(`filter(pk, surplus_number__gte=c).aupdate(F - c)`, unconditional `aupdate`,
`asave`, `acreate`, `aexists`) are modelled as explicit state transformers:
a conditional update reports the number of affected rows, record/notification
creation appends to an append-only list. Time is an abstract instant `DB.now`.

Sites where the Python code can raise (record creation, the compensating
credit) are modelled with explicit boolean "raises" oracles threaded to
exactly the statements that sit inside a `try` in the source; a raised
exception follows the source's `except` handling.
-/

namespace BalanceUtils

/-- In-memory Django `User` object snapshot: primary key, user name, cached
`surplus_number` (the balance field as last read), nullable `superior_id`
foreign key. The cached balance may be stale with respect to the database
row (this is the race window the conditional updates guard). -/
structure User where
  pk : Nat
  username : String
  surplus_number : Int
  superior_id : Option Nat
  deriving Repr, DecidableEq

/-- One row of `models.AIUsageDetails` (append-only usage trail), with the
fields the engine writes. `store` is the optional originating store pk. -/
structure UsageRecord where
  use_number : Int
  surplus : Int
  use_type : String
  userPk : Nat
  tokens : Int
  consumerPk : Nat
  storePk : Option Nat
  deriving Repr, DecidableEq

/-- One row of `models.SystemNotify` with the fields the engine writes. -/
structure SystemNotify where
  title : String
  content : String
  userPk : Nat
  deriving Repr, DecidableEq

/-- One row of `models.PartnerMonthlyEntitlement` with the fields the
engine's query filters on; instants are abstract integers. -/
structure Entitlement where
  userPk : Nat
  partnerPk : Nat
  is_active : Bool
  start_at : Int
  end_at : Int
  deriving Repr, DecidableEq

/-- The persistent state seen by the engine: the user table (balance,
user name, superior link, partner-group membership, row existence), the
entitlement table, the append-only usage trail and notification table,
and the current instant `now` (`timezone.now()` for this call). -/
structure DB where
  balance : Nat → Int
  username : Nat → String
  superior : Nat → Option Nat
  isPartner : Nat → Bool
  alive : Nat → Bool
  entitlements : List Entitlement
  records : List UsageRecord
  notifies : List SystemNotify
  now : Int

/-- The user row as an in-memory object, as `User.objects.aget(pk)` returns
it (fresh values from the row). -/
def DB.fetchUser (db : DB) (pk : Nat) : User :=
  { pk := pk, username := db.username pk, surplus_number := db.balance pk,
    superior_id := db.superior pk }

/-- Account Store conditional decrement
(`User.objects.filter(pk=pk, surplus_number__gte=c).aupdate(surplus_number=F('surplus_number') - c)`):
decrements the row by `c` only if the row exists and its stored balance is
at least `c`; returns the new state and the number of affected rows. -/
def condDecrement (db : DB) (pk : Nat) (c : Int) : DB × Nat :=
  if db.alive pk = true ∧ c ≤ db.balance pk then
    ({ db with balance := Function.update db.balance pk (db.balance pk - c) }, 1)
  else (db, 0)

/-- Account Store unconditional increment
(`User.objects.filter(pk=pk).aupdate(surplus_number=F('surplus_number') + c)`):
adds `c` to the row if it exists; returns the new state and affected rows. -/
def uncondIncrement (db : DB) (pk : Nat) (c : Int) : DB × Nat :=
  if db.alive pk = true then
    ({ db with balance := Function.update db.balance pk (db.balance pk + c) }, 1)
  else (db, 0)

/-- `user.asave()`: persists the in-memory object's fields to its row
(Django save-by-pk upsert). -/
def saveUser (db : DB) (u : User) : DB :=
  { db with
    balance := Function.update db.balance u.pk u.surplus_number,
    username := Function.update db.username u.pk u.username,
    superior := Function.update db.superior u.pk u.superior_id,
    alive := Function.update db.alive u.pk true }

/-- `AIUsageDetails(...).asave()` / `AIUsageDetails.objects.acreate(...)`:
appends one immutable usage record. -/
def appendRecord (db : DB) (r : UsageRecord) : DB :=
  { db with records := db.records ++ [r] }

/-- `SystemNotify(...).asave()` / `SystemNotify.objects.acreate(...)`:
appends one notification row. -/
def appendNotify (db : DB) (n : SystemNotify) : DB :=
  { db with notifies := db.notifies ++ [n] }

/-- `store if usage_type not in ["充值", "购买合作商套餐", "套餐赠送"] else None`. -/
def storeField (usage_type : String) (store : Option Nat) : Option Nat :=
  if usage_type = "充值" ∨ usage_type = "购买合作商套餐" ∨ usage_type = "套餐赠送" then
    none
  else store

/-- `math.ceil(tokens / 1000) if tokens > 0 else 0` — the unmultiplied base
cost (1000 usage units per credit, rounded up; non-positive input is free). -/
def base_cost (tokens : Int) : Int :=
  if 0 < tokens then ⌈(tokens : ℚ) / 1000⌉ else 0

/-- `math.ceil(base_cost * cost_multiplier)` — the full cost computed by
`deduct_balance_by_tokens` lines 292-293; the multiplier is modelled as an
exact rational. -/
def full_cost (tokens : Int) (cost_multiplier : ℚ) : Int :=
  ⌈(base_cost tokens : ℚ) * cost_multiplier⌉

/-- The active-entitlement query of `_get_billing_strategy`:
`PartnerMonthlyEntitlement.objects.filter(user=user, partner=superior,
is_active=True, start_at__lte=now, end_at__gt=now).aexists()`. -/
def hasActiveEntitlement (db : DB) (userPk partnerPk : Nat) : Bool :=
  db.entitlements.any fun e =>
    e.userPk == userPk && e.partnerPk == partnerPk && e.is_active &&
      decide (e.start_at ≤ db.now) && decide (db.now < e.end_at)

/-- The strategy dict returned by `_get_billing_strategy`. -/
structure Strategy where
  is_partner_subordinate : Bool
  partner_user : Option User
  has_monthly_entitlement : Bool
  billing_mode : String
  deriving Repr, DecidableEq

/-- `_get_billing_strategy` (lines 508-556): resolves the billing mode.
No superior link, a superior row that does not exist (`DoesNotExist`), or a
superior without the `合作商` (partner) group, all fall back to the default
`normal` strategy; otherwise the mode is `partner_only` when an active
entitlement window contains `now`, else `dual`. -/
def _get_billing_strategy (db : DB) (user : User) : Strategy :=
  match user.superior_id with
  | none => ⟨false, none, false, "normal"⟩
  | some sid =>
    if db.alive sid = true then
      if db.isPartner sid = true then
        let superior := db.fetchUser sid
        let h := hasActiveEntitlement db user.pk sid
        ⟨true, some superior, h, if h = true then "partner_only" else "dual"⟩
      else ⟨false, none, false, "normal"⟩
    else ⟨false, none, false, "normal"⟩

/-- `_get_customer_friendly_message`: dictionary lookup with a default; the
three non-`ai回复` keys map to the same string as the default, so the lookup
collapses to one test. -/
def _get_customer_friendly_message (usage_type : String) : String :=
  if usage_type = "ai回复" then "抱歉，当前客服繁忙"
  else "剩余AI回复条数不足，请检查剩余条数"

/-- `_get_notification_title`: every key and the default map to the same
title. -/
def _get_notification_title (_usage_type : String) : String :=
  "AI回复条数不足"

/-- `_get_notification_content`: constant body (the closed-stores count is
ignored by the source). -/
def _get_notification_content (_usage_type : String) (_closed : Nat) : String :=
  "尊敬的顾客\n您的账户余额已不足，请购买条数或续费套餐。续费后，请重启水滴智能通讯插件"

/-- The result dictionaries the engine returns, flattened into one record:
a `status` string plus the optional keys that the various paths set.
Unused keys stay `none`. -/
structure BillingResult where
  status : String := ""
  message : String := ""
  required : Option Int := none
  partner_available : Option Int := none
  user_available : Option Int := none
  billing_mode : Option String := none
  partner_deducted : Option Int := none
  user_deducted : Option Int := none
  partner_remaining : Option Int := none
  user_remaining : Option Int := none
  deducted : Option Int := none
  remaining : Option Int := none
  added : Option Int := none
  tokens : Option Int := none
  original_balance : Option Int := none
  required_cost : Option Int := none
  deriving Repr, DecidableEq

/-- `_handle_insufficient_balance_internal` (lines 83-142): when a normal
user cannot cover the cost, (1) if the user still has a positive cached
balance, append one usage record consuming that remainder with resulting
balance 0, (2) zero the user's balance and save it, (3) append one system
notification to the user. Returns the updated state, updated user object and
the `result_info` dict. (The `except` arm of the source's `try` is not
modelled: no failure oracle is attached to these statements because no claim
concerns failures inside this handler.) -/
def _handle_insufficient_balance_internal (db : DB) (user : User)
    (token_cost tokens : Int) (usage_type : String) (store : Option Nat) :
    DB × User × BillingResult :=
  let original := user.surplus_number
  let db1 :=
    if 0 < user.surplus_number then
      appendRecord db
        { use_number := user.surplus_number, surplus := 0, use_type := usage_type,
          userPk := user.pk, tokens := tokens, consumerPk := user.pk,
          storePk := storeField usage_type store }
    else db
  let user1 := { user with surplus_number := 0 }
  let db2 := saveUser db1 user1
  let db3 := appendNotify db2
    { title := _get_notification_title usage_type,
      content := _get_notification_content usage_type 0, userPk := user.pk }
  (db3, user1,
    { status := "success", message := "余额不足处理完成",
      original_balance := some original, required_cost := some token_cost,
      tokens := some tokens })

/-- `_handle_partner_insufficient_balance` (lines 679-708): append one
notification to the subordinate user and one to the partner. (The `except`
arm only logs; no failure oracle is modelled here.) -/
def _handle_partner_insufficient_balance (db : DB) (user partner : User)
    (usage_type : String) : DB :=
  let db1 := appendNotify db
    { title := _get_notification_title usage_type,
      content := "您的上级合作商余额不足，请联系合作商充值或购买套餐",
      userPk := user.pk }
  appendNotify db1
    { title := "下级用户余额不足",
      content := "您的下级用户 " ++ user.username ++ " 因余额不足无法使用AI服务，请及时充值",
      userPk := partner.pk }

/-- Output of `check_and_handle_insufficient_balance`: new state, the
(possibly mutated) user object, and the source's triple
`(is_sufficient, customer_message, detail_info)`. -/
structure CheckOut where
  db : DB
  user : User
  sufficient : Bool
  msg : Option String
  info : Option BillingResult

/-- `check_and_handle_insufficient_balance` (lines 15-80): computes the
unmultiplied cost `ceil(tokens/1000)`, resolves the strategy, and
- in `partner_only` mode with a partner present, checks only the partner's
  cached balance and on shortfall notifies both parties;
- otherwise checks only the user's own cached balance and on shortfall runs
  the internal handler (remainder record + zeroing + notification). -/
def check_and_handle_insufficient_balance (db : DB) (user : User)
    (tokens : Int) (usage_type : String) (store : Option Nat) : CheckOut :=
  let token_cost := base_cost tokens
  let strat := _get_billing_strategy db user
  if strat.is_partner_subordinate = true ∧ strat.billing_mode = "partner_only" ∧
      strat.partner_user.isSome = true then
    let partner := strat.partner_user.getD user
    if token_cost ≤ partner.surplus_number then
      ⟨db, user, true, none, none⟩
    else
      let error_info : BillingResult :=
        { status := "insufficient_balance", message := "合作商余额不足",
          required := some token_cost,
          partner_available := some partner.surplus_number,
          billing_mode := some "partner_only" }
      let db1 := _handle_partner_insufficient_balance db user partner usage_type
      ⟨db1, user, false, some (_get_customer_friendly_message usage_type),
        some error_info⟩
  else
    if token_cost ≤ user.surplus_number then
      ⟨db, user, true, none, none⟩
    else
      let h := _handle_insufficient_balance_internal db user token_cost tokens
        usage_type store
      ⟨h.1, h.2.1, false, some (_get_customer_friendly_message usage_type),
        some h.2.2⟩

/-- `check_balance_sufficient` (lines 176-228): pure balance check under the
current strategy, performing no deduction or handling. In `dual` mode it
requires BOTH the partner's and the user's cached balances to cover the
cost. -/
def check_balance_sufficient (db : DB) (user : User) (tokens : Int) :
    Bool × String :=
  let token_cost := base_cost tokens
  if token_cost = 0 then (true, "")
  else
    let strat := _get_billing_strategy db user
    if strat.is_partner_subordinate = true then
      match strat.partner_user with
      | none =>
        if token_cost ≤ user.surplus_number then (true, "")
        else (false, "您的余额不足，请充值")
      | some partner =>
        if strat.billing_mode = "partner_only" then
          if token_cost ≤ partner.surplus_number then (true, "")
          else (false, "合作商余额不足，请联系合作商充值")
        else
          if token_cost ≤ partner.surplus_number ∧ token_cost ≤ user.surplus_number then
            (true, "")
          else if ¬ token_cost ≤ partner.surplus_number ∧ ¬ token_cost ≤ user.surplus_number then
            (false, "您和合作商的余额都不足，请充值或联系合作商充值")
          else if ¬ token_cost ≤ partner.surplus_number then
            (false, "合作商余额不足，请联系合作商充值")
          else (false, "您的余额不足，请充值")
    else
      if token_cost ≤ user.surplus_number then (true, "")
      else (false, "您的余额不足，请充值")

/-- Output of `_execute_partner_billing`: new state, the (possibly
refreshed) user and partner objects, and the source's `(success, result)`
pair. -/
structure PartnerOut where
  db : DB
  user : User
  partner : User
  ok : Bool
  result : BillingResult

/-- The body of the source's `try` block in `_execute_partner_billing`
(lines 598-676): conditional decrement of the partner, conflict rejection
on zero rows, the dual-mode conditional decrement of the user with the
unconditional compensating credit-back to the partner on zero rows, then
the usage records. The oracles `compensateRaises`, `recordPartnerRaises`
and `recordUserRaises` make the corresponding statement raise; a raised
exception is caught by the source's `except` and turned into a
`status = "error"` result. -/
def _partner_billing_atomic (db : DB) (user partner : User) (token_cost : Int)
    (billing_mode usage_type : String) (tokens : Int) (store : Option Nat)
    (compensateRaises recordPartnerRaises recordUserRaises : Bool) :
    PartnerOut :=
  let p := condDecrement db partner.pk token_cost
  if p.2 = 0 then
    ⟨p.1, user, partner, false,
      { status := "concurrent_conflict", message := "合作商余额扣减失败（并发冲突）",
        billing_mode := some billing_mode }⟩
  else
    let partner1 := { partner with surplus_number := p.1.balance partner.pk }
    if billing_mode = "dual" then
      let q := condDecrement p.1 user.pk token_cost
      if q.2 = 0 then
        if compensateRaises = true then
          ⟨q.1, user, partner1, false,
            { status := "error", message := "扣费异常",
              billing_mode := some billing_mode }⟩
        else
          let r := uncondIncrement q.1 partner.pk token_cost
          ⟨r.1, user, partner1, false,
            { status := "concurrent_conflict",
              message := "用户余额扣减失败，已回滚合作商扣费",
              billing_mode := some billing_mode }⟩
      else
        let user1 := { user with surplus_number := q.1.balance user.pk }
        if recordPartnerRaises = true then
          ⟨q.1, user1, partner1, false,
            { status := "error", message := "扣费异常",
              billing_mode := some billing_mode }⟩
        else
          let db3 := appendRecord q.1
            { use_number := token_cost, surplus := partner1.surplus_number,
              use_type := usage_type, userPk := partner.pk, tokens := tokens,
              consumerPk := user.pk, storePk := storeField usage_type store }
          if recordUserRaises = true then
            ⟨db3, user1, partner1, false,
              { status := "error", message := "扣费异常",
                billing_mode := some billing_mode }⟩
          else
            let db4 := appendRecord db3
              { use_number := token_cost, surplus := user1.surplus_number,
                use_type := usage_type, userPk := user.pk, tokens := tokens,
                consumerPk := user.pk, storePk := storeField usage_type store }
            ⟨db4, user1, partner1, true,
              { status := "success", billing_mode := some billing_mode,
                partner_deducted := some token_cost,
                user_deducted := some token_cost,
                partner_remaining := some partner1.surplus_number,
                user_remaining := some user1.surplus_number }⟩
    else
      if recordPartnerRaises = true then
        ⟨p.1, user, partner1, false,
          { status := "error", message := "扣费异常",
            billing_mode := some billing_mode }⟩
      else
        let db2 := appendRecord p.1
          { use_number := token_cost, surplus := partner1.surplus_number,
            use_type := usage_type, userPk := partner.pk, tokens := tokens,
            consumerPk := user.pk, storePk := storeField usage_type store }
        ⟨db2, user, partner1, true,
          { status := "success", billing_mode := some billing_mode,
            partner_deducted := some token_cost,
            user_deducted := some 0,
            partner_remaining := some partner1.surplus_number,
            user_remaining := some user.surplus_number }⟩

/-- `_execute_partner_billing` (lines 559-676): the cached-balance
pre-checks (partner only in `partner_only` mode; both parties in `dual`
mode, which is the `else` branch of the source), then the atomic section. -/
def _execute_partner_billing (db : DB) (user partner : User) (token_cost : Int)
    (billing_mode usage_type : String) (tokens : Int) (store : Option Nat)
    (compensateRaises recordPartnerRaises recordUserRaises : Bool) :
    PartnerOut :=
  if billing_mode = "partner_only" then
    if partner.surplus_number < token_cost then
      ⟨db, user, partner, false,
        { status := "insufficient_balance", message := "合作商余额不足",
          required := some token_cost,
          partner_available := some partner.surplus_number,
          billing_mode := some billing_mode }⟩
    else
      _partner_billing_atomic db user partner token_cost billing_mode usage_type
        tokens store compensateRaises recordPartnerRaises recordUserRaises
  else
    if partner.surplus_number < token_cost ∨ user.surplus_number < token_cost then
      ⟨db, user, partner, false,
        { status := "insufficient_balance", message := "余额不足",
          required := some token_cost,
          partner_available := some partner.surplus_number,
          user_available := some user.surplus_number,
          billing_mode := some billing_mode }⟩
    else
      _partner_billing_atomic db user partner token_cost billing_mode usage_type
        tokens store compensateRaises recordPartnerRaises recordUserRaises

/-- Output of `_execute_normal_billing`: new state, user object, a flag
that the usage-record creation raised (the exception propagates to
`deduct_balance_by_tokens`'s `except`), and otherwise the `(success,
result)` pair. -/
structure NormalOut where
  db : DB
  user : User
  raised : Bool
  ok : Bool
  result : BillingResult

/-- `_execute_normal_billing` (lines 754-850): check-and-handle first (its
side effects included), then the conditional decrement, conflict rejection
on zero rows, refresh, and the usage record (whose creation can raise via
`recordRaises`; there is no `try` here, so the exception propagates). The
insufficient-balance result dict is built as
`{"status": "insufficient_balance", ..., **detail_info}`, and the merge
overrides `status` and `message` with the handler's values. -/
def _execute_normal_billing (db : DB) (user : User) (tokens token_cost : Int)
    (usage_type : String) (store : Option Nat) (recordRaises : Bool) :
    NormalOut :=
  let c := check_and_handle_insufficient_balance db user tokens usage_type store
  if c.sufficient = false then
    let info := c.info.getD {}
    ⟨c.db, c.user, false, false,
      { info with required := some token_cost,
                  user_available := some c.user.surplus_number }⟩
  else
    let p := condDecrement c.db c.user.pk token_cost
    if p.2 = 0 then
      ⟨p.1, c.user, false, false,
        { status := "concurrent_conflict", message := "余额扣减失败（并发冲突）",
          required := some token_cost }⟩
    else
      let user1 := { c.user with surplus_number := p.1.balance c.user.pk }
      if recordRaises = true then
        ⟨p.1, user1, true, false, {}⟩
      else
        let db2 := appendRecord p.1
          { use_number := token_cost, surplus := user1.surplus_number,
            use_type := usage_type, userPk := c.user.pk, tokens := tokens,
            consumerPk := c.user.pk, storePk := storeField usage_type store }
        ⟨db2, user1, false, true,
          { status := "success", deducted := some token_cost,
            tokens := some tokens, remaining := some user1.surplus_number }⟩

/-- Output of `deduct_balance_by_tokens` / `increase_balance`. -/
structure DeductOut where
  db : DB
  user : User
  ok : Bool
  result : BillingResult

/-- `deduct_balance_by_tokens` (lines 256-354): compute the multiplied
cost, short-circuit success at cost 0, resolve the strategy, then either
the partner path (with the insufficient-balance notifications appended when
it fails; the alert hook is an external fire-and-forget no-op here) or the
normal path (whose propagated record exception is caught by the outer
`except` and returned as a `status = "error"` failure). The strategy dict
always carries a partner object when `is_partner_subordinate` is set; the
`none` arm models the `AttributeError` the source would raise on a missing
partner, caught by the same outer `except`. -/
def deduct_balance_by_tokens (db : DB) (user : User) (tokens : Int)
    (usage_type : String) (store : Option Nat) (cost_multiplier : ℚ)
    (recordRaises compensateRaises recordPartnerRaises recordUserRaises : Bool) :
    DeductOut :=
  let token_cost := full_cost tokens cost_multiplier
  if token_cost = 0 then
    ⟨db, user, true,
      { status := "success", deducted := some 0, tokens := some 0,
        remaining := some user.surplus_number }⟩
  else
    let strat := _get_billing_strategy db user
    if strat.is_partner_subordinate = true then
      match strat.partner_user with
      | none => ⟨db, user, false, { status := "error", message := "扣费异常" }⟩
      | some partner =>
        let r := _execute_partner_billing db user partner token_cost
          strat.billing_mode usage_type tokens store compensateRaises
          recordPartnerRaises recordUserRaises
        if r.ok = true then ⟨r.db, r.user, true, r.result⟩
        else
          let db2 := _handle_partner_insufficient_balance r.db r.user r.partner
            usage_type
          ⟨db2, r.user, false, r.result⟩
    else
      let n := _execute_normal_billing db user tokens token_cost usage_type
        store recordRaises
      if n.raised = true then
        ⟨n.db, n.user, false, { status := "error", message := "扣费异常" }⟩
      else ⟨n.db, n.user, n.ok, n.result⟩

/-- `increase_balance` (lines 410-503): reject non-positive amounts without
mutating, unconditional atomic increment (zero rows means the user row does
not exist), refresh, and one usage record of the credit. -/
def increase_balance (db : DB) (user : User) (amount : Int)
    (usage_type : String) : DeductOut :=
  if amount ≤ 0 then
    ⟨db, user, false, { status := "error", message := "充值金额必须大于0" }⟩
  else
    let p := uncondIncrement db user.pk amount
    if p.2 = 0 then
      ⟨p.1, user, false, { status := "error", message := "用户不存在" }⟩
    else
      let user1 := { user with surplus_number := p.1.balance user.pk }
      let db2 := appendRecord p.1
        { use_number := amount, surplus := user1.surplus_number,
          use_type := usage_type, userPk := user.pk, tokens := 0,
          consumerPk := user.pk, storePk := none }
      ⟨db2, user1, true,
        { status := "success", added := some amount,
          remaining := some user1.surplus_number }⟩

/-! ## Concrete fixtures used by the witnesses -/

/-- A small concrete database: account 1 is a partner (balance 100);
account 2 is its subordinate (stored balance 3); account 3 is a plain
account (balance 5); account 4 is a plain account (balance 3). No
entitlements. -/
def dbA : DB :=
  { balance := fun pk =>
      if pk = 1 then 100 else if pk = 2 then 3 else if pk = 3 then 5
      else if pk = 4 then 3 else 0,
    username := fun _ => "u",
    superior := fun pk => if pk = 2 then some 1 else none,
    isPartner := fun pk => pk == 1,
    alive := fun _ => true,
    entitlements := [],
    records := [], notifies := [], now := 0 }

/-- `dbA` with one active entitlement linking account 2 to partner 1,
whose window `[-5, 5)` contains `now = 0`. -/
def dbE : DB := { dbA with entitlements := [⟨2, 1, true, -5, 5⟩] }

/-- Subordinate user object for account 2 with a stale cached balance of
10 (the stored balance is 3). -/
def uDual : User := { pk := 2, username := "u", surplus_number := 10, superior_id := some 1 }

/-- Plain user object for account 3 (cached balance matches the row). -/
def uNorm : User := { pk := 3, username := "u", surplus_number := 5, superior_id := none }

/-- Plain user object for account 4 (cached balance matches the row). -/
def uFour : User := { pk := 4, username := "u", surplus_number := 3, superior_id := none }

/-- The partner user object for account 1 as fetched from `dbA`. -/
def pA : User := dbA.fetchUser 1

/-! ## Basic facts about the store primitives -/

@[simp]
lemma appendRecord_balance (db : DB) (r : UsageRecord) :
    (appendRecord db r).balance = db.balance := rfl

@[simp]
lemma appendRecord_records (db : DB) (r : UsageRecord) :
    (appendRecord db r).records = db.records ++ [r] := rfl

@[simp]
lemma appendRecord_notifies (db : DB) (r : UsageRecord) :
    (appendRecord db r).notifies = db.notifies := rfl

@[simp]
lemma appendNotify_balance (db : DB) (n : SystemNotify) :
    (appendNotify db n).balance = db.balance := rfl

@[simp]
lemma appendNotify_records (db : DB) (n : SystemNotify) :
    (appendNotify db n).records = db.records := rfl

@[simp]
lemma appendNotify_notifies (db : DB) (n : SystemNotify) :
    (appendNotify db n).notifies = db.notifies ++ [n] := rfl

@[simp]
lemma appendRecord_alive (db : DB) (r : UsageRecord) :
    (appendRecord db r).alive = db.alive := rfl

@[simp]
lemma appendNotify_alive (db : DB) (n : SystemNotify) :
    (appendNotify db n).alive = db.alive := rfl

lemma condDecrement_of_pos (db : DB) (pk : Nat) (c : Int)
    (h : db.alive pk = true ∧ c ≤ db.balance pk) :
    condDecrement db pk c =
      ({ db with balance := Function.update db.balance pk (db.balance pk - c) }, 1) := by
  simp [condDecrement, h]

lemma condDecrement_of_neg (db : DB) (pk : Nat) (c : Int)
    (h : ¬ (db.alive pk = true ∧ c ≤ db.balance pk)) :
    condDecrement db pk c = (db, 0) := by
  simp only [condDecrement, if_neg h]

@[simp]
lemma condDecrement_alive (db : DB) (pk : Nat) (c : Int) :
    (condDecrement db pk c).1.alive = db.alive := by
  unfold condDecrement; split <;> rfl

@[simp]
lemma condDecrement_records (db : DB) (pk : Nat) (c : Int) :
    (condDecrement db pk c).1.records = db.records := by
  unfold condDecrement; split <;> rfl

@[simp]
lemma condDecrement_notifies (db : DB) (pk : Nat) (c : Int) :
    (condDecrement db pk c).1.notifies = db.notifies := by
  unfold condDecrement; split <;> rfl

@[simp]
lemma uncondIncrement_alive (db : DB) (pk : Nat) (c : Int) :
    (uncondIncrement db pk c).1.alive = db.alive := by
  unfold uncondIncrement; split <;> rfl

lemma condDecrement_snd_eq_one (db : DB) (pk : Nat) (c : Int)
    (h : (condDecrement db pk c).2 = 1) :
    db.alive pk = true ∧ c ≤ db.balance pk := by
  by_contra hc
  rw [condDecrement_of_neg db pk c hc] at h
  simp at h

lemma condDecrement_snd_eq_zero (db : DB) (pk : Nat) (c : Int)
    (h : (condDecrement db pk c).2 = 0) :
    ¬ (db.alive pk = true ∧ c ≤ db.balance pk) := by
  intro hc
  rw [condDecrement_of_pos db pk c hc] at h
  simp at h

lemma uncondIncrement_of_alive (db : DB) (pk : Nat) (c : Int)
    (h : db.alive pk = true) :
    uncondIncrement db pk c =
      ({ db with balance := Function.update db.balance pk (db.balance pk + c) }, 1) := by
  simp [uncondIncrement, h]

/-- The balance invariant of the data model (spec §3): every stored balance
is non-negative. -/
def NonNeg (db : DB) : Prop := ∀ pk, 0 ≤ db.balance pk

lemma nonneg_condDecrement (db : DB) (pk : Nat) (c : Int) (h : NonNeg db) :
    NonNeg (condDecrement db pk c).1 := by
  unfold condDecrement
  split
  · rename_i hc
    intro q
    simp only [Function.update_apply]
    split
    · have := hc.2
      omega
    · exact h q
  · exact h

/-! ## Claim theorems -/

/-- **C9**: for every integer usage quantity `t` and multiplier `m`, the
computed cost equals `ceil(ceil(t / 1000) * m)` when `t > 0`, and equals `0`
when `t ≤ 0`. (`full_cost` is a plain function of its two arguments, so it
is pure and side-effect-free by construction.) -/
theorem cost_calculator_spec (t : Int) (m : ℚ) :
    (0 < t → full_cost t m = ⌈(⌈(t : ℚ) / 1000⌉ : ℚ) * m⌉) ∧
    (t ≤ 0 → full_cost t m = 0) := by
  constructor
  · intro ht
    rw [full_cost, base_cost, if_pos ht]
  · intro ht
    rw [full_cost, base_cost, if_neg (by omega : ¬ 0 < t)]
    simp

/-- Witness for C9, at `t = 2500, m = 3/2` and `t = -7`. -/
theorem cost_calculator_spec_witness :
    full_cost 2500 (3 / 2) = ⌈(⌈((2500 : Int) : ℚ) / 1000⌉ : ℚ) * (3 / 2)⌉ ∧
    full_cost (-7) (3 / 2) = 0 :=
  ⟨(cost_calculator_spec 2500 (3 / 2)).1 (by norm_num),
   (cost_calculator_spec (-7) (3 / 2)).2 (by norm_num)⟩

/-- **C4**: strategy resolution returns `normal` when the account has no
sponsor link or the linked sponsor lacks partner membership; returns
`partner_only` with the sponsor as payer when an active entitlement grant
exists whose half-open window contains the current instant
(`start ≤ now < end`, the last conjunct characterises the query); and
returns `dual` (both accounts debited) otherwise. -/
theorem strategy_resolution_spec (db : DB) (user : User) :
    (user.superior_id = none →
      _get_billing_strategy db user = ⟨false, none, false, "normal"⟩) ∧
    (∀ sid, user.superior_id = some sid → db.alive sid = true →
      db.isPartner sid = false →
      _get_billing_strategy db user = ⟨false, none, false, "normal"⟩) ∧
    (∀ sid, user.superior_id = some sid → db.alive sid = true →
      db.isPartner sid = true → hasActiveEntitlement db user.pk sid = true →
      _get_billing_strategy db user =
        ⟨true, some (db.fetchUser sid), true, "partner_only"⟩) ∧
    (∀ sid, user.superior_id = some sid → db.alive sid = true →
      db.isPartner sid = true → hasActiveEntitlement db user.pk sid = false →
      _get_billing_strategy db user =
        ⟨true, some (db.fetchUser sid), false, "dual"⟩) ∧
    (∀ sid, hasActiveEntitlement db user.pk sid = true ↔
      ∃ e ∈ db.entitlements, e.userPk = user.pk ∧ e.partnerPk = sid ∧
        e.is_active = true ∧ e.start_at ≤ db.now ∧ db.now < e.end_at) := by
  refine ⟨?_, ?_, ?_, ?_, ?_⟩
  · intro h
    simp [_get_billing_strategy, h]
  · intro sid hs ha hp
    simp [_get_billing_strategy, hs, ha, hp]
  · intro sid hs ha hp he
    simp [_get_billing_strategy, hs, ha, hp, he]
  · intro sid hs ha hp he
    simp [_get_billing_strategy, hs, ha, hp, he]
  · intro sid
    simp [hasActiveEntitlement, List.any_eq_true, Bool.and_eq_true,
      beq_iff_eq, decide_eq_true_eq, and_assoc]

/-- Witness for C4: account 2's strategy is `dual` in `dbA` (no
entitlement) and `partner_only` in `dbE` (active entitlement), and account
3 resolves to `normal`. -/
theorem strategy_resolution_spec_witness :
    _get_billing_strategy dbA uDual = ⟨true, some (dbA.fetchUser 1), false, "dual"⟩ ∧
    _get_billing_strategy dbE uDual = ⟨true, some (dbE.fetchUser 1), true, "partner_only"⟩ ∧
    _get_billing_strategy dbA uNorm = ⟨false, none, false, "normal"⟩ :=
  ⟨(strategy_resolution_spec dbA uDual).2.2.2.1 1 rfl rfl (by decide) (by decide),
   (strategy_resolution_spec dbE uDual).2.2.1 1 rfl rfl (by decide) (by decide),
   (strategy_resolution_spec dbA uNorm).1 rfl⟩

/-- **C1**: in a `dual`-mode deduction in which the sponsor's conditional
decrement succeeds (one row) but the subordinate's conditional decrement
affects zero rows, the unconditional compensating credit of the same amount
is applied to the sponsor before the conflict rejection is returned, so the
sponsor's stored balance after the call equals its balance before the call. -/
theorem dual_rollback_roundtrip (db : DB) (user partner : User)
    (token_cost tokens : Int) (usage_type : String) (store : Option Nat)
    (rp ru : Bool)
    (hpre1 : token_cost ≤ partner.surplus_number)
    (hpre2 : token_cost ≤ user.surplus_number)
    (hn : (condDecrement db partner.pk token_cost).2 = 1)
    (hm : (condDecrement (condDecrement db partner.pk token_cost).1 user.pk
      token_cost).2 = 0) :
    (_execute_partner_billing db user partner token_cost "dual" usage_type
      tokens store false rp ru).ok = false ∧
    (_execute_partner_billing db user partner token_cost "dual" usage_type
      tokens store false rp ru).result.status = "concurrent_conflict" ∧
    (_execute_partner_billing db user partner token_cost "dual" usage_type
      tokens store false rp ru).db.balance partner.pk = db.balance partner.pk := by
  have h1 := condDecrement_snd_eq_one _ _ _ hn
  have hd1 : condDecrement db partner.pk token_cost =
      ({ db with balance := Function.update db.balance partner.pk (db.balance partner.pk - token_cost) }, 1) :=
    condDecrement_of_pos _ _ _ h1
  have h2 := condDecrement_snd_eq_zero _ _ _ hm
  rw [hd1] at h2
  have hd2 := condDecrement_of_neg _ user.pk token_cost h2
  have hinc := uncondIncrement_of_alive
    { db with balance := Function.update db.balance partner.pk (db.balance partner.pk - token_cost) } partner.pk token_cost h1.1
  have hno : ¬ (partner.surplus_number < token_cost ∨
      user.surplus_number < token_cost) := by
    push_neg
    exact ⟨hpre1, hpre2⟩
  refine ⟨?_, ?_, ?_⟩ <;>
    simp only [_execute_partner_billing, _partner_billing_atomic, hd1, hd2,
      hinc, if_neg hno] <;>
    simp [Function.update_apply]

/-- Witness for C1 on `dbA`: sponsor 1 holds 100, the subordinate's cached
balance is 10 but its stored balance is 3 < 10, so the sponsor decrement
commits, the subordinate decrement affects zero rows, and the sponsor ends
at its original 100. -/
theorem dual_rollback_roundtrip_witness :
    (_execute_partner_billing dbA uDual pA 10 "dual" "ai回复" 10000 none
      false false false).ok = false ∧
    (_execute_partner_billing dbA uDual pA 10 "dual" "ai回复" 10000 none
      false false false).result.status = "concurrent_conflict" ∧
    (_execute_partner_billing dbA uDual pA 10 "dual" "ai回复" 10000 none
      false false false).db.balance pA.pk = dbA.balance pA.pk :=
  dual_rollback_roundtrip dbA uDual pA 10 10000 "ai回复" none false false
    (by decide) (by decide) (by decide) (by decide)

/-- **C8**: in a `dual`-mode deduction in which the subordinate's cached
balance is below the cost at the pre-check, the deduction is rejected with
an unchanged database — in particular the sponsor is never decremented in
this branch (not merely restored by compensation). -/
theorem dual_precheck_frames_sponsor (db : DB) (user partner : User)
    (token_cost tokens : Int) (usage_type : String) (store : Option Nat)
    (cr rp ru : Bool)
    (hu : user.surplus_number < token_cost) :
    (_execute_partner_billing db user partner token_cost "dual" usage_type
      tokens store cr rp ru).db = db ∧
    (_execute_partner_billing db user partner token_cost "dual" usage_type
      tokens store cr rp ru).db.balance partner.pk = db.balance partner.pk ∧
    (_execute_partner_billing db user partner token_cost "dual" usage_type
      tokens store cr rp ru).ok = false ∧
    (_execute_partner_billing db user partner token_cost "dual" usage_type
      tokens store cr rp ru).result.status = "insufficient_balance" := by
  refine ⟨?_, ?_, ?_, ?_⟩ <;>
    simp [_execute_partner_billing, Or.inr hu]

/-- Witness for C8: sponsor balance 100, subordinate cached balance 3,
cost 10 — rejection with the database untouched. -/
theorem dual_precheck_frames_sponsor_witness :
    (_execute_partner_billing dbA (dbA.fetchUser 2) pA 10 "dual" "ai回复"
      10000 none false false false).db = dbA ∧
    (_execute_partner_billing dbA (dbA.fetchUser 2) pA 10 "dual" "ai回复"
      10000 none false false false).db.balance pA.pk = dbA.balance pA.pk ∧
    (_execute_partner_billing dbA (dbA.fetchUser 2) pA 10 "dual" "ai回复"
      10000 none false false false).ok = false ∧
    (_execute_partner_billing dbA (dbA.fetchUser 2) pA 10 "dual" "ai回复"
      10000 none false false false).result.status = "insufficient_balance" :=
  dual_precheck_frames_sponsor dbA (dbA.fetchUser 2) pA 10 10000 "ai回复"
    none false false false (by decide)

/-- **C6**: if, in `dual` mode, the compensating credit-back to the sponsor
itself cannot be applied (the statement raises), the call's outcome is a
failure whose status is the `"error"` status — distinct from the ordinary
`"insufficient_balance"` and `"concurrent_conflict"` rejections — returned
to the caller rather than swallowed. -/
theorem compensation_failure_surfaced (db : DB) (user partner : User)
    (token_cost tokens : Int) (usage_type : String) (store : Option Nat)
    (rp ru : Bool)
    (hpre1 : token_cost ≤ partner.surplus_number)
    (hpre2 : token_cost ≤ user.surplus_number)
    (hn : (condDecrement db partner.pk token_cost).2 = 1)
    (hm : (condDecrement (condDecrement db partner.pk token_cost).1 user.pk
      token_cost).2 = 0) :
    (_execute_partner_billing db user partner token_cost "dual" usage_type
      tokens store true rp ru).ok = false ∧
    (_execute_partner_billing db user partner token_cost "dual" usage_type
      tokens store true rp ru).result.status = "error" ∧
    (_execute_partner_billing db user partner token_cost "dual" usage_type
      tokens store true rp ru).result.status ≠ "insufficient_balance" ∧
    (_execute_partner_billing db user partner token_cost "dual" usage_type
      tokens store true rp ru).result.status ≠ "concurrent_conflict" := by
  have h1 := condDecrement_snd_eq_one _ _ _ hn
  have hd1 : condDecrement db partner.pk token_cost =
      ({ db with balance := Function.update db.balance partner.pk (db.balance partner.pk - token_cost) }, 1) :=
    condDecrement_of_pos _ _ _ h1
  have h2 := condDecrement_snd_eq_zero _ _ _ hm
  rw [hd1] at h2
  have hd2 := condDecrement_of_neg _ user.pk token_cost h2
  have hno : ¬ (partner.surplus_number < token_cost ∨
      user.surplus_number < token_cost) := by
    push_neg
    exact ⟨hpre1, hpre2⟩
  refine ⟨?_, ?_, ?_, ?_⟩ <;>
    simp only [_execute_partner_billing, _partner_billing_atomic, hd1, hd2,
      if_neg hno] <;>
    simp

/-- Witness for C6: same race as the C1 witness but with the compensating
credit raising — the call returns the `"error"` outcome. -/
theorem compensation_failure_surfaced_witness :
    (_execute_partner_billing dbA uDual pA 10 "dual" "ai回复" 10000 none
      true false false).ok = false ∧
    (_execute_partner_billing dbA uDual pA 10 "dual" "ai回复" 10000 none
      true false false).result.status = "error" ∧
    (_execute_partner_billing dbA uDual pA 10 "dual" "ai回复" 10000 none
      true false false).result.status ≠ "insufficient_balance" ∧
    (_execute_partner_billing dbA uDual pA 10 "dual" "ai回复" 10000 none
      true false false).result.status ≠ "concurrent_conflict" :=
  compensation_failure_surfaced dbA uDual pA 10 10000 "ai回复" none false
    false (by decide) (by decide) (by decide) (by decide)

/-- **C5**: for an account in normal mode whose cached balance (equal to its
stored balance) is below the cost `ceil(tokens/1000)`, the deduction
rejects; afterwards the stored balance is exactly 0; if the prior balance
was positive, exactly one usage record consuming that remainder
(`use_number` = prior balance, resulting balance 0) is written (none when
the prior balance was 0); and exactly one notification to the account
holder is created. -/
theorem normal_insufficient_handling (db : DB) (user : User)
    (tokens token_cost : Int) (usage_type : String) (store : Option Nat)
    (rr : Bool)
    (hstrat : (_get_billing_strategy db user).is_partner_subordinate = false)
    (hsnap : user.surplus_number = db.balance user.pk)
    (hins : user.surplus_number < base_cost tokens) :
    (_execute_normal_billing db user tokens token_cost usage_type store rr).ok = false ∧
    (_execute_normal_billing db user tokens token_cost usage_type store rr).raised = false ∧
    (_execute_normal_billing db user tokens token_cost usage_type store rr).db.balance user.pk = 0 ∧
    (_execute_normal_billing db user tokens token_cost usage_type store rr).user.surplus_number = 0 ∧
    (0 < user.surplus_number →
      (_execute_normal_billing db user tokens token_cost usage_type store rr).db.records =
        db.records ++ [{ use_number := user.surplus_number, surplus := 0, use_type := usage_type, userPk := user.pk, tokens := tokens, consumerPk := user.pk, storePk := storeField usage_type store }]) ∧
    (user.surplus_number = 0 →
      (_execute_normal_billing db user tokens token_cost usage_type store rr).db.records = db.records) ∧
    (_execute_normal_billing db user tokens token_cost usage_type store rr).db.notifies =
      db.notifies ++ [{ title := _get_notification_title usage_type, content := _get_notification_content usage_type 0, userPk := user.pk }] := by
  have hni : ¬ ((_get_billing_strategy db user).is_partner_subordinate = true ∧
      (_get_billing_strategy db user).billing_mode = "partner_only" ∧
      (_get_billing_strategy db user).partner_user.isSome = true) := by
    simp [hstrat]
  have hnb : ¬ (base_cost tokens ≤ user.surplus_number) := not_le.2 hins
  refine ⟨?_, ?_, ?_, ?_, ?_, ?_, ?_⟩
  · simp [_execute_normal_billing, check_and_handle_insufficient_balance,
      if_neg hni, if_neg hnb]
  · simp [_execute_normal_billing, check_and_handle_insufficient_balance,
      if_neg hni, if_neg hnb]
  · simp [_execute_normal_billing, check_and_handle_insufficient_balance,
      if_neg hni, if_neg hnb, _handle_insufficient_balance_internal,
      appendNotify, saveUser, Function.update_apply]
  · simp [_execute_normal_billing, check_and_handle_insufficient_balance,
      if_neg hni, if_neg hnb, _handle_insufficient_balance_internal]
  · intro hpos
    simp [_execute_normal_billing, check_and_handle_insufficient_balance,
      if_neg hni, if_neg hnb, _handle_insufficient_balance_internal,
      if_pos hpos, appendNotify, saveUser, appendRecord]
  · intro hz
    have : ¬ 0 < user.surplus_number := by omega
    simp [_execute_normal_billing, check_and_handle_insufficient_balance,
      if_neg hni, if_neg hnb, _handle_insufficient_balance_internal,
      if_neg this, appendNotify, saveUser]
  · by_cases hp : 0 < user.surplus_number <;>
      simp [_execute_normal_billing, check_and_handle_insufficient_balance,
        if_neg hni, if_neg hnb, _handle_insufficient_balance_internal,
        hp, appendNotify, saveUser, appendRecord]

/-- Witness for C5: account 3 holds 5 < cost 10 (`tokens = 10000`); the call
rejects, zeroes the balance, writes the remainder record of 5 and one
notification. -/
theorem normal_insufficient_handling_witness :
    (_execute_normal_billing dbA uNorm 10000 10 "ai回复" none false).ok = false ∧
    (_execute_normal_billing dbA uNorm 10000 10 "ai回复" none false).db.balance 3 = 0 ∧
    (_execute_normal_billing dbA uNorm 10000 10 "ai回复" none false).db.records =
      dbA.records ++ [{ use_number := 5, surplus := 0, use_type := "ai回复", userPk := 3, tokens := 10000, consumerPk := 3, storePk := storeField "ai回复" none }] ∧
    (_execute_normal_billing dbA uNorm 10000 10 "ai回复" none false).db.notifies =
      dbA.notifies ++ [{ title := _get_notification_title "ai回复", content := _get_notification_content "ai回复" 0, userPk := 3 }] := by
  have hb : base_cost 10000 = 10 := by
    rw [base_cost, if_pos (by norm_num)]
    norm_num [Int.ceil_eq_iff]
  have h := normal_insufficient_handling dbA uNorm 10000 10 "ai回复" none false
    (by decide) (by decide) (by rw [hb]; decide)
  exact ⟨h.1, h.2.2.1, h.2.2.2.2.1 (by decide), h.2.2.2.2.2.2⟩

/-- **C10**: for a partner subordinate resolved to `dual` mode,
`check_and_handle_insufficient_balance` consults only the user's own
balance — it reports sufficiency exactly when the user's own cached balance
covers the cost, regardless of the partner's balance — unlike
`check_balance_sufficient`, which in `dual` mode requires both the
partner's and the user's balances to cover the cost. -/
theorem dual_check_uses_own_balance (db : DB) (user partner : User)
    (tokens : Int) (usage_type : String) (store : Option Nat)
    (hsub : (_get_billing_strategy db user).is_partner_subordinate = true)
    (hmode : (_get_billing_strategy db user).billing_mode = "dual")
    (hpu : (_get_billing_strategy db user).partner_user = some partner)
    (h0p : 0 ≤ partner.surplus_number) (h0u : 0 ≤ user.surplus_number) :
    (check_and_handle_insufficient_balance db user tokens usage_type store).sufficient =
      decide (base_cost tokens ≤ user.surplus_number) ∧
    (check_balance_sufficient db user tokens).1 =
      (decide (base_cost tokens ≤ partner.surplus_number) &&
        decide (base_cost tokens ≤ user.surplus_number)) := by
  have hni : ¬ ((_get_billing_strategy db user).is_partner_subordinate = true ∧
      (_get_billing_strategy db user).billing_mode = "partner_only" ∧
      (_get_billing_strategy db user).partner_user.isSome = true) := by
    simp [hmode]
  constructor
  · by_cases hb : base_cost tokens ≤ user.surplus_number
    · simp [check_and_handle_insufficient_balance, if_neg hni, if_pos hb, hb]
    · simp [check_and_handle_insufficient_balance, if_neg hni, if_neg hb, hb]
  · by_cases h0 : base_cost tokens = 0
    · simp only [check_balance_sufficient, h0, if_pos rfl]
      have hp : (0 : Int) ≤ partner.surplus_number := h0p
      have hu : (0 : Int) ≤ user.surplus_number := h0u
      simp [h0, hp, hu]
    · by_cases hp : base_cost tokens ≤ partner.surplus_number <;>
        by_cases hu : base_cost tokens ≤ user.surplus_number <;>
        simp [check_balance_sufficient, if_neg h0, hsub, hpu, hmode, hp, hu]

/-- Witness for C10 on `dbA`: account 2 resolves to `dual`; the two check
functions at `tokens = 10000` (cost 10) agree with the stated formulas. -/
theorem dual_check_uses_own_balance_witness :
    (check_and_handle_insufficient_balance dbA uDual 10000 "ai回复" none).sufficient =
      decide (base_cost 10000 ≤ uDual.surplus_number) ∧
    (check_balance_sufficient dbA uDual 10000).1 =
      (decide (base_cost 10000 ≤ (dbA.fetchUser 1).surplus_number) &&
        decide (base_cost 10000 ≤ uDual.surplus_number)) :=
  dual_check_uses_own_balance dbA uDual (dbA.fetchUser 1) 10000 "ai回复" none
    (by decide) (by decide) (by decide) (by decide) (by decide)

lemma check_sufficient_of_balance (db : DB) (user : User) (tokens : Int)
    (usage_type : String) (store : Option Nat)
    (hstrat : (_get_billing_strategy db user).is_partner_subordinate = false)
    (hsuf : base_cost tokens ≤ user.surplus_number) :
    check_and_handle_insufficient_balance db user tokens usage_type store =
      ⟨db, user, true, none, none⟩ := by
  have hni : ¬ ((_get_billing_strategy db user).is_partner_subordinate = true ∧
      (_get_billing_strategy db user).billing_mode = "partner_only" ∧
      (_get_billing_strategy db user).partner_user.isSome = true) := by
    simp [hstrat]
  simp [check_and_handle_insufficient_balance, if_neg hni, if_pos hsuf]

/-- The committed normal-billing path: with a normal strategy, a cached
balance equal to the stored one, and a stored balance covering both the
passed cost and the base cost used by the pre-check, the conditional
decrement commits; the record step then either raises (`rr = true`,
reported as a failure with the mutation kept) or appends the usage
record. -/
lemma execute_normal_commits (db : DB) (user : User) (tokens token_cost : Int)
    (usage_type : String) (store : Option Nat) (rr : Bool)
    (hstrat : (_get_billing_strategy db user).is_partner_subordinate = false)
    (hsnap : user.surplus_number = db.balance user.pk)
    (halive : db.alive user.pk = true)
    (hc : token_cost ≤ db.balance user.pk)
    (hb : base_cost tokens ≤ db.balance user.pk) :
    (_execute_normal_billing db user tokens token_cost usage_type store rr).db.balance user.pk =
      db.balance user.pk - token_cost ∧
    (_execute_normal_billing db user tokens token_cost usage_type store rr).raised = rr ∧
    (rr = false →
      (_execute_normal_billing db user tokens token_cost usage_type store rr).ok = true ∧
      (_execute_normal_billing db user tokens token_cost usage_type store rr).result.status = "success" ∧
      (_execute_normal_billing db user tokens token_cost usage_type store rr).db.records =
        db.records ++ [{ use_number := token_cost, surplus := db.balance user.pk - token_cost, use_type := usage_type, userPk := user.pk, tokens := tokens, consumerPk := user.pk, storePk := storeField usage_type store }]) ∧
    (rr = true →
      (_execute_normal_billing db user tokens token_cost usage_type store rr).ok = false ∧
      (_execute_normal_billing db user tokens token_cost usage_type store rr).db.records =
        db.records) := by
  have hch := check_sufficient_of_balance db user tokens usage_type store hstrat
    (by rw [hsnap]; exact hb)
  have hd : condDecrement db user.pk token_cost =
      ({ db with balance := Function.update db.balance user.pk (db.balance user.pk - token_cost) }, 1) :=
    condDecrement_of_pos _ _ _ ⟨halive, hc⟩
  cases rr <;>
    refine ⟨?_, ?_, ?_, ?_⟩ <;>
    simp [_execute_normal_billing, hch, hd, appendRecord, Function.update_same]

/-- Counterexample to **C3** as stated: with multiplier `1/2` and
`tokens = 4000` the computed cost is 2 while the pre-check's unmultiplied
cost is 4; account 4 holds 3 ≥ 2 in normal mode, yet the deduction rejects
and the final balance (0, the remainder was consumed) differs from
`old - cost = 1`. -/
theorem normal_commit_counterexample :
    (_get_billing_strategy dbA uFour).billing_mode = "normal" ∧
    uFour.surplus_number = dbA.balance uFour.pk ∧
    full_cost 4000 (1 / 2) ≤ dbA.balance uFour.pk ∧
    (deduct_balance_by_tokens dbA uFour 4000 "ai回复" none (1 / 2) false false false false).ok = false ∧
    (deduct_balance_by_tokens dbA uFour 4000 "ai回复" none (1 / 2) false false false false).db.balance uFour.pk ≠
      dbA.balance uFour.pk - full_cost 4000 (1 / 2) := by
  have hb : base_cost 4000 = 4 := by
    rw [base_cost, if_pos (by norm_num)]
    norm_num [Int.ceil_eq_iff]
  have hf : full_cost 4000 (1 / 2) = 2 := by
    rw [full_cost, hb]
    norm_num [Int.ceil_eq_iff]
  refine ⟨by decide, by decide, by rw [hf]; decide, ?_, ?_⟩ <;>
    simp only [deduct_balance_by_tokens, _execute_normal_billing,
      check_and_handle_insufficient_balance, _handle_insufficient_balance_internal,
      hf, hb] <;>
    decide

/-- **C3**, amended: for every account in normal billing mode whose stored
balance (equal to the cached one) is at least the computed cost AND at
least the unmultiplied base cost `ceil(tokens/1000)` used by the pre-check
(automatic whenever the multiplier is ≥ 1), the deduction commits and the
new stored balance equals the old balance minus the computed cost
exactly. -/
theorem normal_commit_amended (db : DB) (user : User) (tokens : Int) (m : ℚ)
    (usage_type : String) (store : Option Nat) (cr rp ru : Bool)
    (hstrat : (_get_billing_strategy db user).is_partner_subordinate = false)
    (hsnap : user.surplus_number = db.balance user.pk)
    (halive : db.alive user.pk = true)
    (hc : full_cost tokens m ≤ db.balance user.pk)
    (hb : base_cost tokens ≤ db.balance user.pk) :
    (deduct_balance_by_tokens db user tokens usage_type store m false cr rp ru).ok = true ∧
    (deduct_balance_by_tokens db user tokens usage_type store m false cr rp ru).db.balance user.pk =
      db.balance user.pk - full_cost tokens m := by
  by_cases hz : full_cost tokens m = 0
  · constructor
    · simp [deduct_balance_by_tokens, hz]
    · simp [deduct_balance_by_tokens, hz]
  · obtain ⟨hbal, hraised, hok, -⟩ := execute_normal_commits db user tokens
      (full_cost tokens m) usage_type store false hstrat hsnap halive hc hb
    constructor
    · simp only [deduct_balance_by_tokens, if_neg hz, hstrat]
      simp [hraised, (hok rfl).1]
    · simp only [deduct_balance_by_tokens, if_neg hz, hstrat]
      simp [hraised, hbal]

/-- Witness for the amended C3: account 3 (balance 5) at `tokens = 4000`,
multiplier 1 — cost 4 commits and the balance drops to exactly 1. -/
theorem normal_commit_amended_witness :
    (deduct_balance_by_tokens dbA uNorm 4000 "ai回复" none 1 false false false false).ok = true ∧
    (deduct_balance_by_tokens dbA uNorm 4000 "ai回复" none 1 false false false false).db.balance uNorm.pk =
      dbA.balance uNorm.pk - full_cost 4000 1 := by
  have hb : base_cost 4000 = 4 := by
    rw [base_cost, if_pos (by norm_num)]
    norm_num [Int.ceil_eq_iff]
  have hf : full_cost 4000 1 = 4 := by
    rw [full_cost, hb]
    norm_num
  exact normal_commit_amended dbA uNorm 4000 1 "ai回复" none false false false
    (by decide) (by decide) (by decide) (by rw [hf]; decide) (by rw [hb]; decide)

lemma nonneg_update (db : DB) (pk : Nat) (v : Int) (h : NonNeg db)
    (hv : 0 ≤ v) :
    NonNeg { db with balance := Function.update db.balance pk v } := by
  intro q
  show 0 ≤ Function.update db.balance pk v q
  rw [Function.update_apply]
  split
  · exact hv
  · exact h q

lemma nonneg_handler (db : DB) (u : User) (c t : Int) (ut : String)
    (st : Option Nat) (h : NonNeg db) :
    NonNeg (_handle_insufficient_balance_internal db u c t ut st).1 := by
  intro q
  unfold _handle_insufficient_balance_internal
  by_cases hp : 0 < u.surplus_number <;>
    simp [hp, appendNotify, saveUser, appendRecord, Function.update_apply] <;>
    split <;> simp [h q]

lemma nonneg_check (db : DB) (u : User) (t : Int) (ut : String)
    (st : Option Nat) (h : NonNeg db) :
    NonNeg (check_and_handle_insufficient_balance db u t ut st).db := by
  unfold check_and_handle_insufficient_balance
  dsimp only
  split
  · split
    · exact h
    · intro q
      simp only [_handle_partner_insufficient_balance, appendNotify]
      exact h q
  · split
    · exact h
    · exact nonneg_handler db u (base_cost t) t ut st h

lemma nonneg_atomic (db : DB) (usr prt : User) (c : Int) (mode ut : String)
    (tk : Int) (st : Option Nat) (cr rp ru : Bool) (h : NonNeg db) :
    NonNeg (_partner_billing_atomic db usr prt c mode ut tk st cr rp ru).db := by
  by_cases h1 : db.alive prt.pk = true ∧ c ≤ db.balance prt.pk
  case neg =>
    unfold _partner_billing_atomic
    rw [condDecrement_of_neg _ _ _ h1]
    exact h
  case pos =>
    have hd1 := condDecrement_of_pos _ _ _ h1
    have hnn1 : NonNeg { db with balance := Function.update db.balance prt.pk (db.balance prt.pk - c) } :=
      nonneg_update _ _ _ h (by have := h1.2; omega)
    have hXbal : ({ db with balance := Function.update db.balance prt.pk (db.balance prt.pk - c) } : DB).balance prt.pk = db.balance prt.pk - c := by
      show Function.update db.balance prt.pk (db.balance prt.pk - c) prt.pk = _
      rw [Function.update_same]
    have hXalive : ({ db with balance := Function.update db.balance prt.pk (db.balance prt.pk - c) } : DB).alive prt.pk = true := h1.1
    have hbp := h prt.pk
    unfold _partner_billing_atomic
    rw [hd1]
    generalize hX : ({ db with balance := Function.update db.balance prt.pk (db.balance prt.pk - c) } : DB) = X at hnn1 hXbal hXalive ⊢
    dsimp only
    split
    · rename_i hfalse
      simp at hfalse
    · by_cases hmode : mode = "dual"
      · subst hmode
        rw [if_pos rfl]
        by_cases h2 : X.alive usr.pk = true ∧ c ≤ X.balance usr.pk
        · rw [condDecrement_of_pos _ _ _ h2]
          have hnn2 : NonNeg { X with balance := Function.update X.balance usr.pk (X.balance usr.pk - c) } :=
            nonneg_update _ _ _ hnn1 (by have := h2.2; omega)
          dsimp only
          split
          · rename_i hfalse
            simp at hfalse
          · split
            · exact hnn2
            · split
              · exact hnn2
              · exact hnn2
        · rw [condDecrement_of_neg _ _ _ h2]
          dsimp only
          split
          · split
            · exact hnn1
            · rw [uncondIncrement_of_alive _ _ _ hXalive]
              exact nonneg_update _ _ _ hnn1 (by rw [hXbal]; omega)
          · rename_i htrue
            simp at htrue
      · rw [if_neg hmode]
        split
        · exact hnn1
        · exact hnn1

lemma nonneg_partner (db : DB) (usr prt : User) (c : Int) (mode ut : String)
    (tk : Int) (st : Option Nat) (cr rp ru : Bool) (h : NonNeg db) :
    NonNeg (_execute_partner_billing db usr prt c mode ut tk st cr rp ru).db := by
  unfold _execute_partner_billing
  split
  · split
    · exact h
    · exact nonneg_atomic db usr prt c mode ut tk st cr rp ru h
  · split
    · exact h
    · exact nonneg_atomic db usr prt c mode ut tk st cr rp ru h

lemma nonneg_normal (db : DB) (usr : User) (tokens c : Int) (ut : String)
    (st : Option Nat) (rr : Bool) (h : NonNeg db) :
    NonNeg (_execute_normal_billing db usr tokens c ut st rr).db := by
  have h1 := nonneg_check db usr tokens ut st h
  have h2 := nonneg_condDecrement
    (check_and_handle_insufficient_balance db usr tokens ut st).db
    (check_and_handle_insufficient_balance db usr tokens ut st).user.pk c h1
  unfold _execute_normal_billing
  dsimp only
  split
  · exact h1
  · split
    · exact h2
    · split
      · exact h2
      · exact h2

lemma nonneg_increase (db : DB) (usr : User) (amount : Int) (ut : String)
    (h : NonNeg db) :
    NonNeg (increase_balance db usr amount ut).db := by
  unfold increase_balance
  dsimp only
  split
  · exact h
  · rename_i hamt
    by_cases ha : db.alive usr.pk = true
    · rw [uncondIncrement_of_alive _ _ _ ha]
      dsimp only
      split
      · rename_i hfalse
        simp at hfalse
      · exact nonneg_update _ _ _ h (by have := h usr.pk; omega)
    · have hz : uncondIncrement db usr.pk amount = (db, 0) := by
        simp [uncondIncrement, ha]
      rw [hz]
      dsimp only
      split
      · exact h
      · rename_i htrue
        simp at htrue

lemma nonneg_deduct (db : DB) (usr : User) (tokens : Int) (ut : String)
    (st : Option Nat) (m : ℚ) (f1 f2 f3 f4 : Bool) (h : NonNeg db) :
    NonNeg (deduct_balance_by_tokens db usr tokens ut st m f1 f2 f3 f4).db := by
  unfold deduct_balance_by_tokens
  dsimp only
  split
  · exact h
  · split
    · split
      · exact h
      · rename_i prt _
        have hr := nonneg_partner db usr prt (full_cost tokens m)
          (_get_billing_strategy db usr).billing_mode ut tokens st f2 f3 f4 h
        split
        · exact hr
        · intro q
          simp only [_handle_partner_insufficient_balance, appendNotify]
          exact hr q
    · have hn := nonneg_normal db usr tokens (full_cost tokens m) ut st f1 h
      split
      · exact hn
      · exact hn

/-- **C2**: every operation of the engine preserves non-negativity of every
stored balance: the check-and-handle entry point, partner billing in either
mode (including the compensating credit), normal billing, the credit
function, and the full deduction entry point all map a state whose
balances are all non-negative to a state whose balances are all
non-negative. -/
theorem balances_stay_nonneg :
    (∀ (db : DB) (user : User) (tokens : Int) (ut : String) (st : Option Nat),
      NonNeg db →
      NonNeg (check_and_handle_insufficient_balance db user tokens ut st).db) ∧
    (∀ (db : DB) (user partner : User) (c : Int) (mode ut : String)
      (tk : Int) (st : Option Nat) (cr rp ru : Bool),
      NonNeg db →
      NonNeg (_execute_partner_billing db user partner c mode ut tk st cr rp ru).db) ∧
    (∀ (db : DB) (user : User) (tokens c : Int) (ut : String)
      (st : Option Nat) (rr : Bool),
      NonNeg db →
      NonNeg (_execute_normal_billing db user tokens c ut st rr).db) ∧
    (∀ (db : DB) (user : User) (amount : Int) (ut : String),
      NonNeg db → NonNeg (increase_balance db user amount ut).db) ∧
    (∀ (db : DB) (user : User) (tokens : Int) (ut : String) (st : Option Nat)
      (m : ℚ) (f1 f2 f3 f4 : Bool),
      NonNeg db →
      NonNeg (deduct_balance_by_tokens db user tokens ut st m f1 f2 f3 f4).db) :=
  ⟨fun db u t ut st h => nonneg_check db u t ut st h,
   fun db u p c mode ut tk st cr rp ru h =>
     nonneg_partner db u p c mode ut tk st cr rp ru h,
   fun db u t c ut st rr h => nonneg_normal db u t c ut st rr h,
   fun db u a ut h => nonneg_increase db u a ut h,
   fun db u t ut st m f1 f2 f3 f4 h => nonneg_deduct db u t ut st m f1 f2 f3 f4 h⟩

/-- Witness for C2: `dbA` has non-negative balances; they stay non-negative
through a full dual deduction and through a credit. -/
theorem balances_stay_nonneg_witness :
    NonNeg (deduct_balance_by_tokens dbA uDual 10000 "ai回复" none 1 false false false false).db ∧
    NonNeg (increase_balance dbA uNorm 20 "充值").db := by
  have hA : NonNeg dbA := by
    intro pk
    simp only [dbA]
    split_ifs <;> norm_num
  exact ⟨balances_stay_nonneg.2.2.2.2 dbA uDual 10000 "ai回复" none 1
      false false false false hA,
    balances_stay_nonneg.2.2.2.1 dbA uNorm 20 "充值" hA⟩

end BalanceUtils
